import Mathlib

/-!
Shallow embedding of `src/lib/source/gcm_mode.c` (renesas/tinycrypt), the GCM
mode entry points, together with theorems settling the specification claims.

The C file defines six public entry points.  Every body consists solely of
`TC_PARAMETER_NOT_USED(x)` statements — the macro expands to `(void)((x))` —
followed by `return TC_CRYPTO_FAIL;`.  For the pointer parameters the macro is
applied to the *dereferenced* pointer (`TC_PARAMETER_NOT_USED(*iv)` etc.), so
the expression `*iv` is evaluated: reading through a NULL pointer is undefined
behaviour in C.  No entry point writes through any pointer, and no entry point
ever returns `TC_CRYPTO_SUCCESS`.

Modelling choices:
* Byte memory is a total map `Nat → Nat`; a C pointer argument is
  `Option Nat` (`none` models NULL, `some a` a pointer to address `a`).
* Each entry point is a function from the pre-call memory and its arguments
  to `Option (Nat × Mem)`: `some (status, mem)` is a defined call returning
  `status` with post-call memory `mem`; `none` models the undefined behaviour
  of evaluating `*p` with `p == NULL`.
* Integer parameters (`uint32_t additional_len`, `uint8_t length`, …) are
  modelled as `Nat`; the C bodies only mention them in `(void)`-casts, so
  their machine width never matters.
-/

namespace TinycryptGcm

/-- Constant `TC_CRYPTO_SUCCESS` from `tinycrypt/constants.h`. -/
def TC_CRYPTO_SUCCESS : Nat := 1

/-- Constant `TC_CRYPTO_FAIL` from `tinycrypt/constants.h`. -/
def TC_CRYPTO_FAIL : Nat := 0

/-- Byte-addressed memory: a total map from addresses to byte values. -/
def Mem : Type := Nat → Nat

/-- A C pointer argument: `none` models NULL, `some a` a valid pointer to
address `a`. -/
def Ptr : Type := Option Nat

/-- Evaluation of `*p` (as in `TC_PARAMETER_NOT_USED(*p)`, i.e. `(void)(*p)`):
reads one byte through `p`; the result is `none` (undefined behaviour) when
`p` is NULL. -/
def readByte (m : Mem) (p : Ptr) : Option Nat :=
  match p with
  | none => none
  | some a => some (m a)

/-- Function `tc_gcm_encryption_init` (gcm_mode.c lines 44-51).  The body evaluates
`(void)(sched)`, `(void)(*iv)`, `(void)(*aad)`, `(void)(additional_len)` and
returns `TC_CRYPTO_FAIL`.  Only `*iv` and `*aad` dereference a pointer; the
memory is never written. -/
def tc_gcm_encryption_init (m : Mem) (sched : Ptr) (iv : Ptr) (aad : Ptr)
    (additional_len : Nat) : Option (Nat × Mem) := do
  let _ := sched
  let _ ← readByte m iv
  let _ ← readByte m aad
  let _ := additional_len
  pure (TC_CRYPTO_FAIL, m)

/-- Function `tc_gcm_encryption_update` (gcm_mode.c lines 53-61).  The body evaluates
`(void)(sched)`, `(void)(*input)`, `(void)(*output)`, `(void)(length)` and
returns `TC_CRYPTO_FAIL`. -/
def tc_gcm_encryption_update (m : Mem) (sched : Ptr) (input : Ptr)
    (output : Ptr) (length : Nat) : Option (Nat × Mem) := do
  let _ := sched
  let _ ← readByte m input
  let _ ← readByte m output
  let _ := length
  pure (TC_CRYPTO_FAIL, m)

/-- Function `tc_gcm_encryption_final` (gcm_mode.c lines 63-77).  The body evaluates
`(void)(sched)`, `(void)(*input)`, `(void)(input_len)`, `(void)(aad_len)`,
`(void)(*output)`, `(void)(*tag)` and returns `TC_CRYPTO_FAIL`. -/
def tc_gcm_encryption_final (m : Mem) (sched : Ptr) (input : Ptr)
    (input_len : Nat) (aad_len : Nat) (output : Ptr) (tag : Ptr) :
    Option (Nat × Mem) := do
  let _ := sched
  let _ ← readByte m input
  let _ := input_len
  let _ := aad_len
  let _ ← readByte m output
  let _ ← readByte m tag
  pure (TC_CRYPTO_FAIL, m)

/-- Function `tc_gcm_decryption_init` (gcm_mode.c lines 79-86).  Same body shape as
`tc_gcm_encryption_init`. -/
def tc_gcm_decryption_init (m : Mem) (sched : Ptr) (iv : Ptr) (aad : Ptr)
    (additional_len : Nat) : Option (Nat × Mem) := do
  let _ := sched
  let _ ← readByte m iv
  let _ ← readByte m aad
  let _ := additional_len
  pure (TC_CRYPTO_FAIL, m)

/-- Function `tc_gcm_decryption_update` (gcm_mode.c lines 88-96).  Same body shape as
`tc_gcm_encryption_update`. -/
def tc_gcm_decryption_update (m : Mem) (sched : Ptr) (input : Ptr)
    (output : Ptr) (length : Nat) : Option (Nat × Mem) := do
  let _ := sched
  let _ ← readByte m input
  let _ ← readByte m output
  let _ := length
  pure (TC_CRYPTO_FAIL, m)

/-- Function `tc_gcm_decryption_final` (gcm_mode.c lines 98-114).  The body evaluates
`(void)(sched)`, `(void)(*input)`, `(void)(*tag)`, `(void)(aad_len)`,
`(void)(input_len)`, `(void)(tag_len)`, `(void)(*output)` and returns
`TC_CRYPTO_FAIL`. -/
def tc_gcm_decryption_final (m : Mem) (sched : Ptr) (input : Ptr) (tag : Ptr)
    (aad_len : Nat) (input_len : Nat) (tag_len : Nat) (output : Ptr) :
    Option (Nat × Mem) := do
  let _ := sched
  let _ ← readByte m input
  let _ ← readByte m tag
  let _ := aad_len
  let _ := input_len
  let _ := tag_len
  let _ ← readByte m output
  pure (TC_CRYPTO_FAIL, m)

/-- Caller loop for streaming encryption: one `tc_gcm_encryption_update` call
per chunk length, advancing the input and output pointers by each chunk's
length, threading the memory; stops with `none` if a call is undefined. -/
def runEncUpdates (sched : Ptr) : Mem → Nat → Nat → List Nat → Option Mem
  | m, _, _, [] => some m
  | m, inAddr, outAddr, c :: rest =>
      match tc_gcm_encryption_update m sched (some inAddr) (some outAddr) c with
      | none => none
      | some r => runEncUpdates sched r.2 (inAddr + c) (outAddr + c) rest

/-- Caller loop for streaming decryption, analogous to `runEncUpdates` but
calling `tc_gcm_decryption_update`. -/
def runDecUpdates (sched : Ptr) : Mem → Nat → Nat → List Nat → Option Mem
  | m, _, _, [] => some m
  | m, inAddr, outAddr, c :: rest =>
      match tc_gcm_decryption_update m sched (some inAddr) (some outAddr) c with
      | none => none
      | some r => runDecUpdates sched r.2 (inAddr + c) (outAddr + c) rest

/-- Documented encryption call sequence (gcm_mode.h usage steps 1-3):
`tc_gcm_encryption_init`, one `tc_gcm_encryption_update` per chunk, then
`tc_gcm_encryption_final` over the whole input (`chunks.sum` bytes). -/
def encryptionSequence (m : Mem) (sched iv aad : Ptr) (additional_len : Nat)
    (inAddr outAddr tagAddr : Nat) (chunks : List Nat) (aad_len : Nat) :
    Option (Nat × Mem) :=
  match tc_gcm_encryption_init m sched iv aad additional_len with
  | none => none
  | some r0 =>
      match runEncUpdates sched r0.2 inAddr outAddr chunks with
      | none => none
      | some m1 =>
          tc_gcm_encryption_final m1 sched (some inAddr) chunks.sum aad_len
            (some outAddr) (some tagAddr)

/-- Documented decryption call sequence (gcm_mode.h usage steps 4-6):
`tc_gcm_decryption_init`, one `tc_gcm_decryption_update` per chunk, then
`tc_gcm_decryption_final` over the whole input with the caller's tag. -/
def decryptionSequence (m : Mem) (sched iv aad : Ptr) (additional_len : Nat)
    (inAddr outAddr tagAddr : Nat) (chunks : List Nat)
    (aad_len tag_len : Nat) : Option (Nat × Mem) :=
  match tc_gcm_decryption_init m sched iv aad additional_len with
  | none => none
  | some r0 =>
      match runDecUpdates sched r0.2 inAddr outAddr chunks with
      | none => none
      | some m1 =>
          tc_gcm_decryption_final m1 sched (some inAddr) (some tagAddr)
            aad_len chunks.sum tag_len (some outAddr)

/-- Flip one bit (`bit % 8`) of the byte at address `addr`, leaving every
other byte unchanged: the single-bit tampering of the spec. -/
def flipBit (m : Mem) (addr bit : Nat) : Mem :=
  fun a => if a = addr then m a ^^^ 2 ^ (bit % 8) else m a

/-- A concrete all-zero memory, used for concrete evaluations. -/
def mem0 : Mem := fun _ => 0

/-! Helper evaluation lemmas: each entry point, called with all of its
dereferenced pointers non-NULL, returns `TC_CRYPTO_FAIL` and the unchanged
memory; with arbitrary pointers the result is either that or `none`. -/

theorem encryption_init_some (m : Mem) (sched : Ptr) (a b alen : Nat) :
    tc_gcm_encryption_init m sched (some a) (some b) alen
      = some (TC_CRYPTO_FAIL, m) := rfl

theorem encryption_update_some (m : Mem) (sched : Ptr) (a b len : Nat) :
    tc_gcm_encryption_update m sched (some a) (some b) len
      = some (TC_CRYPTO_FAIL, m) := rfl

theorem encryption_final_some (m : Mem) (sched : Ptr) (a ilen aadlen b c : Nat) :
    tc_gcm_encryption_final m sched (some a) ilen aadlen (some b) (some c)
      = some (TC_CRYPTO_FAIL, m) := rfl

theorem decryption_init_some (m : Mem) (sched : Ptr) (a b alen : Nat) :
    tc_gcm_decryption_init m sched (some a) (some b) alen
      = some (TC_CRYPTO_FAIL, m) := rfl

theorem decryption_update_some (m : Mem) (sched : Ptr) (a b len : Nat) :
    tc_gcm_decryption_update m sched (some a) (some b) len
      = some (TC_CRYPTO_FAIL, m) := rfl

theorem decryption_final_some (m : Mem) (sched : Ptr) (a b aadlen ilen taglen c : Nat) :
    tc_gcm_decryption_final m sched (some a) (some b) aadlen ilen taglen (some c)
      = some (TC_CRYPTO_FAIL, m) := rfl

theorem encryption_init_cases (m : Mem) (sched iv aad : Ptr) (alen : Nat) :
    tc_gcm_encryption_init m sched iv aad alen = none
      ∨ tc_gcm_encryption_init m sched iv aad alen = some (TC_CRYPTO_FAIL, m) := by
  cases iv <;> cases aad <;> simp [tc_gcm_encryption_init, readByte]

theorem encryption_update_cases (m : Mem) (sched input output : Ptr) (len : Nat) :
    tc_gcm_encryption_update m sched input output len = none
      ∨ tc_gcm_encryption_update m sched input output len = some (TC_CRYPTO_FAIL, m) := by
  cases input <;> cases output <;> simp [tc_gcm_encryption_update, readByte]

theorem encryption_final_cases (m : Mem) (sched input output tag : Ptr)
    (ilen aadlen : Nat) :
    tc_gcm_encryption_final m sched input ilen aadlen output tag = none
      ∨ tc_gcm_encryption_final m sched input ilen aadlen output tag
          = some (TC_CRYPTO_FAIL, m) := by
  cases input <;> cases output <;> cases tag <;>
    simp [tc_gcm_encryption_final, readByte]

theorem decryption_init_cases (m : Mem) (sched iv aad : Ptr) (alen : Nat) :
    tc_gcm_decryption_init m sched iv aad alen = none
      ∨ tc_gcm_decryption_init m sched iv aad alen = some (TC_CRYPTO_FAIL, m) := by
  cases iv <;> cases aad <;> simp [tc_gcm_decryption_init, readByte]

theorem decryption_update_cases (m : Mem) (sched input output : Ptr) (len : Nat) :
    tc_gcm_decryption_update m sched input output len = none
      ∨ tc_gcm_decryption_update m sched input output len = some (TC_CRYPTO_FAIL, m) := by
  cases input <;> cases output <;> simp [tc_gcm_decryption_update, readByte]

theorem decryption_final_cases (m : Mem) (sched input tag output : Ptr)
    (aadlen ilen taglen : Nat) :
    tc_gcm_decryption_final m sched input tag aadlen ilen taglen output = none
      ∨ tc_gcm_decryption_final m sched input tag aadlen ilen taglen output
          = some (TC_CRYPTO_FAIL, m) := by
  cases input <;> cases tag <;> cases output <;>
    simp [tc_gcm_decryption_final, readByte]

theorem runEncUpdates_const (sched : Ptr) (m : Mem) (inAddr outAddr : Nat)
    (cs : List Nat) : runEncUpdates sched m inAddr outAddr cs = some m := by
  induction cs generalizing m inAddr outAddr with
  | nil => rfl
  | cons c rest ih => simp [runEncUpdates, encryption_update_some, ih]

theorem runDecUpdates_const (sched : Ptr) (m : Mem) (inAddr outAddr : Nat)
    (cs : List Nat) : runDecUpdates sched m inAddr outAddr cs = some m := by
  induction cs generalizing m inAddr outAddr with
  | nil => rfl
  | cons c rest ih => simp [runDecUpdates, decryption_update_some, ih]

theorem encryptionSequence_eval (m : Mem) (sched : Ptr) (a b alen ia oa ta : Nat)
    (cs : List Nat) (aadlen : Nat) :
    encryptionSequence m sched (some a) (some b) alen ia oa ta cs aadlen
      = some (TC_CRYPTO_FAIL, m) := by
  simp [encryptionSequence, encryption_init_some, runEncUpdates_const,
    encryption_final_some]

theorem decryptionSequence_eval (m : Mem) (sched : Ptr) (a b alen ia oa ta : Nat)
    (cs : List Nat) (aadlen taglen : Nat) :
    decryptionSequence m sched (some a) (some b) alen ia oa ta cs aadlen taglen
      = some (TC_CRYPTO_FAIL, m) := by
  simp [decryptionSequence, decryption_init_some, runDecUpdates_const,
    decryption_final_some]

/-- C1: the round-trip law fails on this code.  At a fully valid concrete
input (all pointers non-NULL, AAD length 12, one 16-byte plaintext chunk,
tag length 16) every call of the encryption sequence and of the decryption
sequence returns `TC_CRYPTO_FAIL`; in particular `tc_gcm_decryption_final`
reports `TC_CRYPTO_FAIL`, not the `TC_CRYPTO_SUCCESS` the claim requires,
and no ciphertext or plaintext byte is ever written. -/
theorem C1_roundtrip_fails :
    (encryptionSequence mem0 (some 0) (some 1) (some 2) 12 100 200 300
        [16] 12).map (fun r => r.1) = some TC_CRYPTO_FAIL
    ∧ (decryptionSequence mem0 (some 0) (some 1) (some 2) 12 100 200 300
        [16] 12 16).map (fun r => r.1) = some TC_CRYPTO_FAIL
    ∧ TC_CRYPTO_FAIL ≠ TC_CRYPTO_SUCCESS :=
  ⟨rfl, rfl, by decide⟩

/-- C2: with every documented validation satisfied (non-NULL key schedule,
IV and AAD pointers, non-zero AAD length) both init functions still return
`TC_CRYPTO_FAIL`, contradicting the documented `TC_CRYPTO_SUCCESS`; the
bodies perform no validation and no AAD absorption at all. -/
theorem C2_init_valid_args_fail :
    tc_gcm_encryption_init mem0 (some 0) (some 1) (some 2) 16
      = some (TC_CRYPTO_FAIL, mem0)
    ∧ tc_gcm_decryption_init mem0 (some 0) (some 1) (some 2) 16
      = some (TC_CRYPTO_FAIL, mem0)
    ∧ TC_CRYPTO_FAIL ≠ TC_CRYPTO_SUCCESS :=
  ⟨rfl, rfl, by decide⟩

/-- C3: with every documented validation satisfied (non-NULL key schedule,
input and output pointers, non-zero length) both update functions still
return `TC_CRYPTO_FAIL`, contradicting the documented `TC_CRYPTO_SUCCESS`;
no chunk processing happens. -/
theorem C3_update_valid_args_fail :
    tc_gcm_encryption_update mem0 (some 0) (some 1) (some 2) 16
      = some (TC_CRYPTO_FAIL, mem0)
    ∧ tc_gcm_decryption_update mem0 (some 0) (some 1) (some 2) 16
      = some (TC_CRYPTO_FAIL, mem0)
    ∧ TC_CRYPTO_FAIL ≠ TC_CRYPTO_SUCCESS :=
  ⟨rfl, rfl, by decide⟩

/-- C4: chunk invariance.  For any two partitions of the same total input
into non-empty chunks, the full encryption sequence and the full decryption
sequence produce identical results (every update leaves the memory
untouched, so both runs return the sentinel with the memory unchanged, and
the output and tag buffers agree byte for byte between the partitions). -/
theorem C4_chunk_invariance (m : Mem) (sched iv aad : Ptr)
    (alen ia oa ta : Nat) (cs1 cs2 : List Nat) (aadlen taglen : Nat)
    (h1 : ∀ c ∈ cs1, c ≠ 0) (h2 : ∀ c ∈ cs2, c ≠ 0)
    (hsum : cs1.sum = cs2.sum) :
    encryptionSequence m sched iv aad alen ia oa ta cs1 aadlen
      = encryptionSequence m sched iv aad alen ia oa ta cs2 aadlen
    ∧ decryptionSequence m sched iv aad alen ia oa ta cs1 aadlen taglen
      = decryptionSequence m sched iv aad alen ia oa ta cs2 aadlen taglen := by
  constructor
  · cases h0 : tc_gcm_encryption_init m sched iv aad alen with
    | none => simp [encryptionSequence, h0]
    | some r0 => simp [encryptionSequence, h0, runEncUpdates_const, hsum]
  · cases h0 : tc_gcm_decryption_init m sched iv aad alen with
    | none => simp [decryptionSequence, h0]
    | some r0 => simp [decryptionSequence, h0, runDecUpdates_const, hsum]

/-- Witness for C4 at a concrete input: the partitions [1, 2] and [3] of a
3-byte input satisfy the hypotheses, and the two runs coincide. -/
theorem C4_chunk_invariance_witness :
    ((∀ c ∈ ([1, 2] : List Nat), c ≠ 0) ∧ (∀ c ∈ ([3] : List Nat), c ≠ 0)
      ∧ ([1, 2] : List Nat).sum = ([3] : List Nat).sum)
    ∧ (encryptionSequence mem0 (some 0) (some 1) (some 2) 12 100 200 300
          [1, 2] 12
        = encryptionSequence mem0 (some 0) (some 1) (some 2) 12 100 200 300
          [3] 12
      ∧ decryptionSequence mem0 (some 0) (some 1) (some 2) 12 100 200 300
          [1, 2] 12 16
        = decryptionSequence mem0 (some 0) (some 1) (some 2) 12 100 200 300
          [3] 12 16) :=
  ⟨⟨by decide, by decide, by decide⟩,
    C4_chunk_invariance mem0 (some 0) (some 1) (some 2) 12 100 200 300
      [1, 2] [3] 12 16 (by decide) (by decide) (by decide)⟩

/-- C5: validation does not precede the pointer dereferences — there is no
validation at all, and each body evaluates the dereference of its pointer
parameters unconditionally.  With a NULL iv, `tc_gcm_encryption_init`
evaluates the expression written `*iv` inside `TC_PARAMETER_NOT_USED(*iv)`
(undefined behaviour, modelled as `none`) instead of cleanly returning
`TC_CRYPTO_FAIL`; likewise `tc_gcm_decryption_final` with a NULL input. -/
theorem C5_null_deref :
    tc_gcm_encryption_init mem0 (some 0) none (some 2) 16 = none
    ∧ tc_gcm_decryption_final mem0 (some 0) none (some 1) 12 16 16 (some 2)
      = none :=
  ⟨rfl, rfl⟩

/-- C6: for every call of `tc_gcm_decryption_final` with non-NULL pointers
and a tag length below 8 bytes, the function returns `TC_CRYPTO_FAIL`, and
no tag verification is performed (the body returns the sentinel without
reading the tag bytes into any comparison). -/
theorem C6_short_tag_rejected (m : Mem) (sched : Ptr)
    (a b c aadlen ilen taglen : Nat) (h : taglen < 8) :
    tc_gcm_decryption_final m sched (some a) (some b) aadlen ilen taglen
      (some c) = some (TC_CRYPTO_FAIL, m) :=
  decryption_final_some m sched a b aadlen ilen taglen c

/-- Witness for C6 at a concrete input with tag length 4 < 8. -/
theorem C6_short_tag_rejected_witness :
    4 < 8
    ∧ tc_gcm_decryption_final mem0 (some 0) (some 1) (some 2) 12 16 4 (some 3)
      = some (TC_CRYPTO_FAIL, mem0) :=
  ⟨by decide, C6_short_tag_rejected mem0 (some 0) 1 2 3 12 16 4 (by decide)⟩

/-- C7: tamper sensitivity.  For every memory, flipping any single bit of
any byte (ciphertext, AAD and tag all live in the memory) and running the
decryption sequence makes `tc_gcm_decryption_final` report
`TC_CRYPTO_FAIL`; the result is never `TC_CRYPTO_SUCCESS`, so the output is
never asserted valid.  (This holds trivially: the final reports
`TC_CRYPTO_FAIL` on every input, tampered or not.) -/
theorem C7_tamper_always_fails (m : Mem) (sched : Ptr)
    (ivA aadA alen ia oa ta : Nat) (cs : List Nat)
    (aadlen taglen addr bit : Nat) :
    (decryptionSequence (flipBit m addr bit) sched (some ivA) (some aadA)
        alen ia oa ta cs aadlen taglen).map (fun r => r.1)
      = some TC_CRYPTO_FAIL
    ∧ (decryptionSequence (flipBit m addr bit) sched (some ivA) (some aadA)
        alen ia oa ta cs aadlen taglen).map (fun r => r.1)
      ≠ some TC_CRYPTO_SUCCESS := by
  rw [decryptionSequence_eval]
  exact ⟨rfl, by simp [TC_CRYPTO_FAIL, TC_CRYPTO_SUCCESS]⟩

/-- Witness for C7 at a concrete input: bit 3 of the byte at address 100
(the first ciphertext byte) flipped. -/
theorem C7_tamper_always_fails_witness :
    (decryptionSequence (flipBit mem0 100 3) (some 0) (some 1) (some 2) 12
        100 200 300 [16] 12 16).map (fun r => r.1) = some TC_CRYPTO_FAIL :=
  (C7_tamper_always_fails mem0 (some 0) 1 2 12 100 200 300 [16] 12 16
    100 3).1

/-- C8: `tc_gcm_decryption_final` performs no tag recomputation and no
comparison at all: its status is `TC_CRYPTO_FAIL` regardless of the tag
bytes in memory (first conjunct: flipping a tag byte changes nothing), and
an authentication "mismatch" is indistinguishable from the documented
argument-validation failure tag_len = 0 (second conjunct: identical
sentinel), contradicting the claimed distinct constant-time comparison. -/
theorem C8_no_tag_comparison :
    (tc_gcm_decryption_final mem0 (some 0) (some 1) (some 2) 12 16 16
        (some 3)).map (fun r => r.1)
      = (tc_gcm_decryption_final (flipBit mem0 2 0) (some 0) (some 1)
        (some 2) 12 16 16 (some 3)).map (fun r => r.1)
    ∧ (tc_gcm_decryption_final mem0 (some 0) (some 1) (some 2) 12 16 16
        (some 3)).map (fun r => r.1)
      = (tc_gcm_decryption_final mem0 (some 0) (some 1) (some 2) 12 16 0
        (some 3)).map (fun r => r.1) :=
  ⟨rfl, rfl⟩

/-- C9 counterexample: the claim says every call returns `TC_CRYPTO_FAIL`,
but with iv NULL `tc_gcm_encryption_init` does not return the sentinel — it
evaluates `*iv` (a NULL dereference, undefined behaviour, modelled as
`none`). -/
theorem C9_counterexample :
    (tc_gcm_encryption_init mem0 (some 0) none (some 2) 16).map
      (fun r => r.1) ≠ some TC_CRYPTO_FAIL := by
  simp [tc_gcm_encryption_init, readByte]

/-- C9 (amended): every entry point, on every call that dereferences no
NULL pointer, returns `TC_CRYPTO_FAIL` with the memory unchanged; and no
call of any entry point, on any arguments whatsoever, ever returns
`TC_CRYPTO_SUCCESS`. -/
theorem C9_always_fail :
    (∀ m : Mem, ∀ sched : Ptr, ∀ a b alen : Nat,
      tc_gcm_encryption_init m sched (some a) (some b) alen
        = some (TC_CRYPTO_FAIL, m))
    ∧ (∀ m : Mem, ∀ sched : Ptr, ∀ a b len : Nat,
      tc_gcm_encryption_update m sched (some a) (some b) len
        = some (TC_CRYPTO_FAIL, m))
    ∧ (∀ m : Mem, ∀ sched : Ptr, ∀ a ilen aadlen b c : Nat,
      tc_gcm_encryption_final m sched (some a) ilen aadlen (some b) (some c)
        = some (TC_CRYPTO_FAIL, m))
    ∧ (∀ m : Mem, ∀ sched : Ptr, ∀ a b alen : Nat,
      tc_gcm_decryption_init m sched (some a) (some b) alen
        = some (TC_CRYPTO_FAIL, m))
    ∧ (∀ m : Mem, ∀ sched : Ptr, ∀ a b len : Nat,
      tc_gcm_decryption_update m sched (some a) (some b) len
        = some (TC_CRYPTO_FAIL, m))
    ∧ (∀ m : Mem, ∀ sched : Ptr, ∀ a b aadlen ilen taglen c : Nat,
      tc_gcm_decryption_final m sched (some a) (some b) aadlen ilen taglen
        (some c) = some (TC_CRYPTO_FAIL, m))
    ∧ (∀ m : Mem, ∀ sched iv aad : Ptr, ∀ alen : Nat,
      (tc_gcm_encryption_init m sched iv aad alen).map (fun r => r.1)
        ≠ some TC_CRYPTO_SUCCESS)
    ∧ (∀ m : Mem, ∀ sched input output : Ptr, ∀ len : Nat,
      (tc_gcm_encryption_update m sched input output len).map (fun r => r.1)
        ≠ some TC_CRYPTO_SUCCESS)
    ∧ (∀ m : Mem, ∀ sched input output tag : Ptr, ∀ ilen aadlen : Nat,
      (tc_gcm_encryption_final m sched input ilen aadlen output tag).map
        (fun r => r.1) ≠ some TC_CRYPTO_SUCCESS)
    ∧ (∀ m : Mem, ∀ sched iv aad : Ptr, ∀ alen : Nat,
      (tc_gcm_decryption_init m sched iv aad alen).map (fun r => r.1)
        ≠ some TC_CRYPTO_SUCCESS)
    ∧ (∀ m : Mem, ∀ sched input output : Ptr, ∀ len : Nat,
      (tc_gcm_decryption_update m sched input output len).map (fun r => r.1)
        ≠ some TC_CRYPTO_SUCCESS)
    ∧ (∀ m : Mem, ∀ sched input tag output : Ptr, ∀ aadlen ilen taglen : Nat,
      (tc_gcm_decryption_final m sched input tag aadlen ilen taglen
        output).map (fun r => r.1) ≠ some TC_CRYPTO_SUCCESS) := by
  refine ⟨encryption_init_some, encryption_update_some,
    encryption_final_some, decryption_init_some, decryption_update_some,
    decryption_final_some, ?_, ?_, ?_, ?_, ?_, ?_⟩
  · intro m sched iv aad alen
    rcases encryption_init_cases m sched iv aad alen with hc | hc <;>
      simp [hc, TC_CRYPTO_FAIL, TC_CRYPTO_SUCCESS]
  · intro m sched input output len
    rcases encryption_update_cases m sched input output len with hc | hc <;>
      simp [hc, TC_CRYPTO_FAIL, TC_CRYPTO_SUCCESS]
  · intro m sched input output tag ilen aadlen
    rcases encryption_final_cases m sched input output tag ilen aadlen
      with hc | hc <;> simp [hc, TC_CRYPTO_FAIL, TC_CRYPTO_SUCCESS]
  · intro m sched iv aad alen
    rcases decryption_init_cases m sched iv aad alen with hc | hc <;>
      simp [hc, TC_CRYPTO_FAIL, TC_CRYPTO_SUCCESS]
  · intro m sched input output len
    rcases decryption_update_cases m sched input output len with hc | hc <;>
      simp [hc, TC_CRYPTO_FAIL, TC_CRYPTO_SUCCESS]
  · intro m sched input tag output aadlen ilen taglen
    rcases decryption_final_cases m sched input tag output aadlen ilen taglen
      with hc | hc <;> simp [hc, TC_CRYPTO_FAIL, TC_CRYPTO_SUCCESS]

/-- Witness for C9 (amended) at concrete inputs: a defined init call
returns the sentinel, and a decryption final call does not return
`TC_CRYPTO_SUCCESS`. -/
theorem C9_always_fail_witness :
    tc_gcm_encryption_init mem0 (some 3) (some 4) (some 5) 7
      = some (TC_CRYPTO_FAIL, mem0)
    ∧ (tc_gcm_decryption_final mem0 (some 0) (some 1) (some 2) 12 16 16
        (some 3)).map (fun r => r.1) ≠ some TC_CRYPTO_SUCCESS :=
  ⟨C9_always_fail.1 mem0 (some 3) 4 5 7,
    C9_always_fail.2.2.2.2.2.2.2.2.2.2.2 mem0 (some 0) (some 1) (some 2)
      (some 3) 12 16 16⟩

/-- C10: no entry point writes through any pointer or mutates any state:
whenever a call returns (is defined), the post-call memory — covering every
buffer reachable through the arguments — equals the pre-call memory, so the
returned status is the only observable effect. -/
theorem C10_no_writes :
    (∀ m : Mem, ∀ sched iv aad : Ptr, ∀ alen : Nat, ∀ r : Nat × Mem,
      tc_gcm_encryption_init m sched iv aad alen = some r → r.2 = m)
    ∧ (∀ m : Mem, ∀ sched input output : Ptr, ∀ len : Nat, ∀ r : Nat × Mem,
      tc_gcm_encryption_update m sched input output len = some r → r.2 = m)
    ∧ (∀ m : Mem, ∀ sched input output tag : Ptr, ∀ ilen aadlen : Nat,
      ∀ r : Nat × Mem,
      tc_gcm_encryption_final m sched input ilen aadlen output tag = some r
        → r.2 = m)
    ∧ (∀ m : Mem, ∀ sched iv aad : Ptr, ∀ alen : Nat, ∀ r : Nat × Mem,
      tc_gcm_decryption_init m sched iv aad alen = some r → r.2 = m)
    ∧ (∀ m : Mem, ∀ sched input output : Ptr, ∀ len : Nat, ∀ r : Nat × Mem,
      tc_gcm_decryption_update m sched input output len = some r → r.2 = m)
    ∧ (∀ m : Mem, ∀ sched input tag output : Ptr,
      ∀ aadlen ilen taglen : Nat, ∀ r : Nat × Mem,
      tc_gcm_decryption_final m sched input tag aadlen ilen taglen output
        = some r → r.2 = m) := by
  refine ⟨?_, ?_, ?_, ?_, ?_, ?_⟩
  · intro m sched iv aad alen r h
    rcases encryption_init_cases m sched iv aad alen with hc | hc <;>
      rw [hc] at h
    · exact Option.noConfusion h
    · injection h with h2; rw [← h2]
  · intro m sched input output len r h
    rcases encryption_update_cases m sched input output len with hc | hc <;>
      rw [hc] at h
    · exact Option.noConfusion h
    · injection h with h2; rw [← h2]
  · intro m sched input output tag ilen aadlen r h
    rcases encryption_final_cases m sched input output tag ilen aadlen
      with hc | hc <;> rw [hc] at h
    · exact Option.noConfusion h
    · injection h with h2; rw [← h2]
  · intro m sched iv aad alen r h
    rcases decryption_init_cases m sched iv aad alen with hc | hc <;>
      rw [hc] at h
    · exact Option.noConfusion h
    · injection h with h2; rw [← h2]
  · intro m sched input output len r h
    rcases decryption_update_cases m sched input output len with hc | hc <;>
      rw [hc] at h
    · exact Option.noConfusion h
    · injection h with h2; rw [← h2]
  · intro m sched input tag output aadlen ilen taglen r h
    rcases decryption_final_cases m sched input tag output aadlen ilen taglen
      with hc | hc <;> rw [hc] at h
    · exact Option.noConfusion h
    · injection h with h2; rw [← h2]

/-- Witness for C10 at a concrete input: a defined init call returns with
the memory unchanged. -/
theorem C10_no_writes_witness :
    (TC_CRYPTO_FAIL, mem0).2 = mem0 :=
  C10_no_writes.1 mem0 (some 0) (some 1) (some 2) 16 (TC_CRYPTO_FAIL, mem0)
    rfl

end TinycryptGcm
